import Mathlib

/-!
Shallow embedding of the SEO-audit pipeline (Playwright-driven page audit):
the data model (`types.ts`), the pure tail of the extraction collector, the
issue/recommendation deriver and scoring engine (`playwright-audit.ts`), the
heuristic deep-analysis generator (`llm-service.ts`), the in-memory audit
storage (`memory-storage.ts`, modelled after JavaScript `Map` semantics) and
the audit orchestrator's input validation (`audit-service.ts`).

JavaScript numbers are modelled as `Int` where the code does arithmetic on
them and as `Nat` where they are counts; strings are Lean `String`s,
`x | null`/optional fields are `Option`s.  JavaScript truthiness on a
`string | null` value (`!x`, `x ? a : b`) is captured by `jsTruthyStr`,
truthiness on an optional boolean by `jsTruthyBool`.
-/

set_option autoImplicit false

namespace SEOAudit

/-- Severity of an issue (`type` field of `Issue` in types.ts). -/
inductive IssueType where
  | error
  | warning
  | info
deriving DecidableEq, Repr

/-- One of the four fixed audit categories. -/
inductive Category where
  | seo
  | technical
  | content
  | performance
deriving DecidableEq, Repr

/-- Impact tier of an issue. -/
inductive Impact where
  | high
  | medium
  | low
deriving DecidableEq, Repr

/-- `Issue` record from types.ts. -/
structure Issue where
  id : String
  type : IssueType
  category : Category
  title : String
  description : String
  impact : Impact
  recommendation : String
deriving DecidableEq, Repr

/-- `Recommendation` record from types.ts. -/
structure Recommendation where
  id : String
  title : String
  description : String
  priority : Impact
  category : Category
  actionItems : List String
  estimatedImpact : Impact
deriving DecidableEq, Repr

/-- `CategoryScore` record from types.ts. -/
structure CategoryScore where
  score : Int
  maxScore : Int
  issues : List Issue
deriving DecidableEq, Repr

/-- The four per-category scores built by `calculateCategoryScores`. -/
structure Categories where
  seo : CategoryScore
  technical : CategoryScore
  content : CategoryScore
  performance : CategoryScore
deriving DecidableEq, Repr

/-- JavaScript truthiness of a `string | null` value: `null` and the empty
string are falsy. -/
def jsTruthyStr : Option String → Bool
  | none => false
  | some s => s ≠ ""

/-- JavaScript truthiness of an optional boolean field: only an explicit
`true` is truthy. -/
def jsTruthyBool : Option Bool → Bool
  | some true => true
  | _ => false

/-- Title sub-record of `SEOAnalysis`. -/
structure TitleInfo where
  content : Option String
  length : Nat
  isOptimal : Bool
deriving DecidableEq, Repr

/-- Meta-description sub-record of `SEOAnalysis`. -/
structure MetaDescriptionInfo where
  content : Option String
  length : Nat
  isOptimal : Bool
deriving DecidableEq, Repr

/-- Open Graph sub-record of `SEOAnalysis`. -/
structure OpenGraph where
  title : Option String
  description : Option String
  image : Option String
  url : Option String
  type : Option String
deriving DecidableEq, Repr

/-- Heading structure sub-record of `SEOAnalysis`. -/
structure HeadingStructure where
  h1 : List String
  h2 : List String
  h3 : List String
  h4 : List String
  h5 : List String
  h6 : List String
deriving DecidableEq, Repr

/-- `SEOAnalysis` record from types.ts. -/
structure SEOAnalysis where
  title : TitleInfo
  metaDescription : MetaDescriptionInfo
  metaKeywords : Option String
  viewport : Option String
  charset : Option String
  canonical : Option String
  hreflang : List String
  robots : Option String
  openGraph : OpenGraph
  headingStructure : HeadingStructure
deriving DecidableEq, Repr

/-- Network-request counters of `TechnicalAnalysis`. -/
structure NetworkRequestStats where
  total : Nat
  failed : Nat
  totalSize : Nat
deriving DecidableEq, Repr

/-- Mobile-optimization flags of `TechnicalAnalysis`. -/
structure MobileOptimization where
  hasViewport : Bool
  isResponsive : Bool
  touchTargetSize : Bool
deriving DecidableEq, Repr

/-- Accessibility summary of `TechnicalAnalysis`. -/
structure AccessibilitySummary where
  score : Int
  issues : List String
deriving DecidableEq, Repr

/-- Security summary of `TechnicalAnalysis`. -/
structure SecuritySummary where
  hasSSL : Bool
  mixedContent : Bool
  vulnerabilities : List String
deriving DecidableEq, Repr

/-- `TechnicalAnalysis` record from types.ts. -/
structure TechnicalAnalysis where
  loadTime : Int
  firstContentfulPaint : Int
  largestContentfulPaint : Int
  cumulativeLayoutShift : Int
  timeToInteractive : Int
  networkRequests : NetworkRequestStats
  mobileOptimization : MobileOptimization
  accessibility : AccessibilitySummary
  security : SecuritySummary
deriving DecidableEq, Repr

/-- Image statistics of `ContentAnalysis`. -/
structure ImageStats where
  total : Nat
  withoutAlt : Nat
  withEmptyAlt : Nat
  lazyLoaded : Nat
  oversized : Nat
deriving DecidableEq, Repr

/-- Link statistics of `ContentAnalysis`. -/
structure LinkStats where
  total : Nat
  internal : Nat
  external : Nat
  broken : Nat
  nofollow : Nat
  empty : Nat
deriving DecidableEq, Repr

/-- Structured-data summary of `ContentAnalysis`. -/
structure StructuredData where
  hasStructuredData : Bool
  types : List String
  errors : List String
deriving DecidableEq, Repr

/-- `ContentAnalysis` record from types.ts; `placeholderLinks` and
`hasSuspiciousTestimonials` are the two optional audit-specific extras. -/
structure ContentAnalysis where
  wordCount : Nat
  readabilityScore : Int
  images : ImageStats
  links : LinkStats
  structuredData : StructuredData
  placeholderLinks : Option (List String)
  hasSuspiciousTestimonials : Option Bool
deriving DecidableEq, Repr

/-- Unit of an improvement opportunity's estimated savings. -/
inductive SavingsType where
  | time
  | bytes
deriving DecidableEq, Repr

/-- One improvement opportunity of `PerformanceAnalysis`. -/
structure Opportunity where
  title : String
  description : String
  savings : Int
  type : SavingsType
deriving DecidableEq, Repr

/-- Script/style resource counters of `PerformanceAnalysis`. -/
structure CodeResourceStats where
  total : Nat
  unused : Nat
  blocking : Nat
deriving DecidableEq, Repr

/-- Image resource counters of `PerformanceAnalysis`. -/
structure ImageResourceStats where
  total : Nat
  unoptimized : Nat
  totalSize : Nat
deriving DecidableEq, Repr

/-- Resource breakdowns of `PerformanceAnalysis`. -/
structure ResourceBreakdown where
  javascript : CodeResourceStats
  css : CodeResourceStats
  images : ImageResourceStats
deriving DecidableEq, Repr

/-- Core timing metrics of `PerformanceAnalysis`. -/
structure PerformanceMetrics where
  firstContentfulPaint : Int
  largestContentfulPaint : Int
  firstInputDelay : Int
  cumulativeLayoutShift : Int
  speedIndex : Int
  timeToInteractive : Int
deriving DecidableEq, Repr

/-- `PerformanceAnalysis` record from types.ts. -/
structure PerformanceAnalysis where
  overallScore : Int
  metrics : PerformanceMetrics
  opportunities : List Opportunity
  resources : ResourceBreakdown
deriving DecidableEq, Repr

/-- `Screenshots` record from types.ts. -/
structure Screenshots where
  desktop : Option String
  mobile : Option String
  timestamp : String
deriving DecidableEq, Repr

/-- Audit lifecycle status. -/
inductive AuditStatus where
  | running
  | completed
  | failed
deriving DecidableEq, Repr

/-- Richer issue shape produced by the heuristic deep-analysis generator
(the fallback builds plain objects with exactly these fields). -/
structure DetailedIssue where
  id : String
  title : String
  description : String
  impact : String
  fix : String
  businessImpact : String
  codeExample : Option String
deriving DecidableEq, Repr

/-- `ContentQualityAssessment` record from types.ts (the fallback fills the
three required fields). -/
structure ContentQualityAssessment where
  overallScore : Int
  issues : List String
  recommendations : List String
deriving DecidableEq, Repr

/-- `BusinessImpactProjections` record from types.ts (required fields). -/
structure BusinessImpactProjections where
  searchVisibilityIncrease : String
  userExperienceImprovement : String
  conversionRateImpact : String
deriving DecidableEq, Repr

/-- Priority of an action item. -/
inductive ActionPriority where
  | immediate
  | high
  | medium
  | low
deriving DecidableEq, Repr

/-- `ActionItem` record from types.ts. -/
structure ActionItem where
  priority : ActionPriority
  task : String
  timeline : String
  codeExample : Option String
  successMetrics : Option (List String)
deriving DecidableEq, Repr

/-- `LLMAnalysisResult` record from types.ts: the deep-analysis report. -/
structure LLMAnalysisResult where
  criticalIssues : List DetailedIssue
  highPriorityIssues : List DetailedIssue
  mediumPriorityIssues : List DetailedIssue
  contentQualityAssessment : ContentQualityAssessment
  businessImpactProjections : BusinessImpactProjections
  actionItems : List ActionItem
deriving DecidableEq, Repr

/-- `AuditResult` record from types.ts: the aggregate record for one audit.
The optional head fields (`id`, `createdAt`, `status`, ...) are assigned by
the storage collaborator at persistence time. -/
structure AuditResult where
  id : Option String
  userId : Option String
  createdAt : Option String
  updatedAt : Option String
  status : Option AuditStatus
  processingTime : Option Int
  url : String
  timestamp : String
  overallScore : Int
  categories : Categories
  seo : SEOAnalysis
  technical : TechnicalAnalysis
  content : ContentAnalysis
  performance : PerformanceAnalysis
  screenshots : Screenshots
  recommendations : List Recommendation
  issues : List Issue
  llmAnalysis : Option LLMAnalysisResult
deriving DecidableEq, Repr

/-! ## Scoring engine (`calculateCategoryScores` / `calculateOverallScore`,
playwright-audit.ts lines 486-508) -/

/-- Penalty charged for one issue:
`issue.impact === 'high' ? 20 : issue.impact === 'medium' ? 10 : 5`. -/
def penalty : Impact → Int
  | .high => 20
  | .medium => 10
  | .low => 5

/-- Initial value of the `categories` record: every category starts at
score 100, max score 100, no issues. -/
def initCategories : Categories :=
  { seo := ⟨100, 100, []⟩
    technical := ⟨100, 100, []⟩
    content := ⟨100, 100, []⟩
    performance := ⟨100, 100, []⟩ }

/-- Body of the `issues.forEach` loop: push the issue onto its category and
subtract its penalty from that category's running score, clamping at 0. -/
def applyIssue (cats : Categories) (i : Issue) : Categories :=
  match i.category with
  | .seo =>
      { cats with seo :=
          ⟨max 0 (cats.seo.score - penalty i.impact), cats.seo.maxScore,
            cats.seo.issues ++ [i]⟩ }
  | .technical =>
      { cats with technical :=
          ⟨max 0 (cats.technical.score - penalty i.impact), cats.technical.maxScore,
            cats.technical.issues ++ [i]⟩ }
  | .content =>
      { cats with content :=
          ⟨max 0 (cats.content.score - penalty i.impact), cats.content.maxScore,
            cats.content.issues ++ [i]⟩ }
  | .performance =>
      { cats with performance :=
          ⟨max 0 (cats.performance.score - penalty i.impact), cats.performance.maxScore,
            cats.performance.issues ++ [i]⟩ }

/-- `calculateCategoryScores` from playwright-audit.ts: fold the loop body
over the issue list in order. -/
def calculateCategoryScores (issues : List Issue) : Categories :=
  issues.foldl applyIssue initCategories

/-- JavaScript `Math.round`: round half toward positive infinity. -/
def jsRound (x : ℚ) : Int := ⌊x + 1 / 2⌋

/-- `calculateOverallScore` from playwright-audit.ts: mean of the four
category scores (`Object.values` iterates insertion order: seo, technical,
content, performance; `Object.keys(categories).length` is 4), rounded with
`Math.round`. -/
def calculateOverallScore (cats : Categories) : Int :=
  let totalScore : Int :=
    cats.seo.score + cats.technical.score + cats.content.score + cats.performance.score
  jsRound ((totalScore : ℚ) / 4)

/-- Score of the given category inside a `Categories` record. -/
def catScore (c : Category) (cats : Categories) : Int :=
  match c with
  | .seo => cats.seo.score
  | .technical => cats.technical.score
  | .content => cats.content.score
  | .performance => cats.performance.score

/-- Total penalty charged against one category by a list of issues. -/
def totalPenalty (c : Category) (issues : List Issue) : Int :=
  (issues.filter (fun i => i.category = c)).foldr (fun i acc => penalty i.impact + acc) 0

theorem penalty_pos (imp : Impact) : 0 < penalty imp := by
  cases imp <;> simp [penalty]

theorem totalPenalty_nonneg (c : Category) (issues : List Issue) :
    0 ≤ totalPenalty c issues := by
  induction issues with
  | nil => simp [totalPenalty]
  | cons i rest ih =>
      unfold totalPenalty at *
      by_cases h : i.category = c <;>
        simp [h, List.filter_cons] <;>
        [exact add_nonneg (le_of_lt (penalty_pos i.impact)) ih; exact ih]

/-- Clamping after every subtraction equals clamping once at the end, as
long as each further penalty is nonnegative. -/
theorem max_zero_sub_collapse (x p : Int) (hp : 0 ≤ p) :
    max 0 (max 0 x - p) = max 0 (x - p) := by
  rcases le_or_lt 0 x with hx | hx
  · rw [max_eq_right hx]
  · rw [max_eq_left (le_of_lt hx)]
    have h1 : (0 : Int) - p ≤ 0 := by omega
    have h2 : x - p < 0 := by omega
    rw [max_eq_left h1, max_eq_left (le_of_lt h2)]

theorem catScore_applyIssue (c : Category) (cats : Categories) (i : Issue) :
    catScore c (applyIssue cats i) =
      if i.category = c then max 0 (catScore c cats - penalty i.impact)
      else catScore c cats := by
  cases c <;> cases hi : i.category <;>
    simp [applyIssue, catScore, hi]

/-- Folding the loop body over a list of issues clamps only at the end:
closed form of the running category score. -/
theorem catScore_foldl (issues : List Issue) (c : Category) (cats : Categories)
    (h0 : 0 ≤ catScore c cats) :
    catScore c (issues.foldl applyIssue cats) =
      max 0 (catScore c cats - totalPenalty c issues) := by
  induction issues generalizing cats with
  | nil =>
      simp [totalPenalty, max_eq_right h0]
  | cons i rest ih =>
      rw [List.foldl_cons]
      by_cases hc : i.category = c
      · have hstep : catScore c (applyIssue cats i) =
            max 0 (catScore c cats - penalty i.impact) := by
          rw [catScore_applyIssue]; simp [hc]
        have hrest := ih (applyIssue cats i) (by rw [hstep]; exact le_max_left _ _)
        rw [hrest, hstep,
          max_zero_sub_collapse _ _ (totalPenalty_nonneg c rest)]
        have htp : totalPenalty c (i :: rest) = penalty i.impact + totalPenalty c rest := by
          simp [totalPenalty, List.filter_cons, hc]
        rw [htp]
        ring_nf
      · have hstep : catScore c (applyIssue cats i) = catScore c cats := by
          rw [catScore_applyIssue]; simp [hc]
        have hrest := ih (applyIssue cats i) (by rw [hstep]; exact h0)
        have htp : totalPenalty c (i :: rest) = totalPenalty c rest := by
          simp [totalPenalty, List.filter_cons, hc]
        rw [hrest, hstep, htp]

theorem catScore_init (c : Category) : catScore c initCategories = 100 := by
  cases c <;> rfl

/-- Each final category score is `max 0 (100 - sum of its penalties)`. -/
theorem calculateCategoryScores_closed_form (issues : List Issue) (c : Category) :
    catScore c (calculateCategoryScores issues) = max 0 (100 - totalPenalty c issues) := by
  unfold calculateCategoryScores
  rw [catScore_foldl issues c initCategories (by rw [catScore_init]; norm_num),
    catScore_init]

theorem catScore_bounds (issues : List Issue) (c : Category) :
    0 ≤ catScore c (calculateCategoryScores issues) ∧
      catScore c (calculateCategoryScores issues) ≤ 100 := by
  rw [calculateCategoryScores_closed_form]
  constructor
  · exact le_max_left _ _
  · have := totalPenalty_nonneg c issues
    rw [max_le_iff]
    omega

theorem jsRound_div4_bounds (t : Int) (h0 : 0 ≤ t) (h4 : t ≤ 400) :
    0 ≤ jsRound ((t : ℚ) / 4) ∧ jsRound ((t : ℚ) / 4) ≤ 100 := by
  have ht0 : (0 : ℚ) ≤ (t : ℚ) := by exact_mod_cast h0
  have ht4 : (t : ℚ) ≤ 400 := by exact_mod_cast h4
  unfold jsRound
  constructor
  · refine Int.le_floor.mpr ?_
    push_cast
    linarith
  · have hlt : ⌊(t : ℚ) / 4 + 1 / 2⌋ < 101 := by
      refine Int.floor_lt.mpr ?_
      push_cast
      linarith
    omega

/-! ## Issue & recommendation deriver
(`analyzeIssuesAndRecommendations`, playwright-audit.ts lines 334-484) -/

/-- The two always-appended general recommendations. -/
def fixedRecommendations : List Recommendation :=
  [{ id := "seo-optimization"
     title := "SEO Optimization"
     description := "Improve search engine visibility with better meta tags and content structure."
     priority := .high
     category := .seo
     actionItems :=
       ["Optimize title tag length", "Add or improve meta description",
        "Ensure single H1 tag per page", "Add Open Graph tags"]
     estimatedImpact := .high },
   { id := "technical-improvements"
     title := "Technical Improvements"
     description := "Enhance website security and mobile optimization."
     priority := .medium
     category := .technical
     actionItems :=
       ["Implement HTTPS if not already", "Add viewport meta tag",
        "Optimize mobile experience", "Fix broken links"]
     estimatedImpact := .medium }]

/-- `analyzeIssuesAndRecommendations` from playwright-audit.ts: the fixed,
ordered rule table over the four signal bundles.  Each sequential
`issues.push` inside an `if` is modelled as appending a conditional
singleton; the recommendations are pushed unconditionally at the end. -/
def analyzeIssuesAndRecommendations (seo : SEOAnalysis) (technical : TechnicalAnalysis)
    (content : ContentAnalysis) (_performance : PerformanceAnalysis) :
    List Issue × List Recommendation :=
  let issues : List Issue :=
    (if seo.title.isOptimal then [] else
      [{ id := "title-length", type := .warning, category := .seo
         title := "Title tag length not optimal"
         description := "Title is " ++ toString seo.title.length ++
           " characters. Optimal length is 30-60 characters."
         impact := .medium
         recommendation := "Optimize title tag length to 30-60 characters for better search visibility." }]) ++
    (if seo.metaDescription.isOptimal then [] else
      [{ id := "meta-description", type := .error, category := .seo
         title := "Meta description issues"
         description :=
           if jsTruthyStr seo.metaDescription.content then
             "Meta description is " ++ toString seo.metaDescription.length ++
               " characters. Optimal length is 120-160 characters."
           else "Meta description is missing."
         impact := .high
         recommendation := "Add or optimize meta description to 120-160 characters." }]) ++
    (if seo.headingStructure.h1.length = 0 then
      [{ id := "missing-h1", type := .error, category := .seo
         title := "Missing H1 tag"
         description := "Page does not have an H1 tag."
         impact := .high
         recommendation := "Add a descriptive H1 tag to clearly identify the page topic." }]
      else []) ++
    (if 1 < seo.headingStructure.h1.length then
      [{ id := "multiple-h1", type := .warning, category := .seo
         title := "Multiple H1 tags"
         description := "Page has " ++ toString seo.headingStructure.h1.length ++ " H1 tags."
         impact := .medium
         recommendation := "Use only one H1 tag per page for better SEO structure." }]
      else []) ++
    (if 0 < content.images.withoutAlt then
      [{ id := "images-without-alt", type := .warning, category := .content
         title := "Images without alt text"
         description := toString content.images.withoutAlt ++ " images are missing alt text."
         impact := .medium
         recommendation := "Add descriptive alt text to all images for accessibility and SEO." }]
      else []) ++
    (if 0 < content.links.empty then
      [{ id := "empty-links", type := .warning, category := .content
         title := "Empty link text"
         description := toString content.links.empty ++ " links have empty or missing text."
         impact := .medium
         recommendation := "Add descriptive text to all links for better user experience and SEO." }]
      else []) ++
    (if technical.security.hasSSL then [] else
      [{ id := "no-ssl", type := .error, category := .technical
         title := "No SSL certificate"
         description := "Website is not using HTTPS."
         impact := .high
         recommendation := "Install SSL certificate to secure the website and improve search rankings." }]) ++
    (if technical.mobileOptimization.hasViewport then [] else
      [{ id := "no-viewport", type := .error, category := .technical
         title := "Missing viewport meta tag"
         description := "Page does not have a viewport meta tag."
         impact := .high
         recommendation := "Add viewport meta tag for proper mobile display." }]) ++
    (if 3000 < technical.loadTime then
      [{ id := "slow-loading", type := .warning, category := .performance
         title := "Slow page load time"
         description := "Page loads in " ++ toString technical.loadTime ++ "ms."
         impact := .medium
         recommendation := "Optimize images, minify CSS/JS, and use caching to improve load times." }]
      else [])
  (issues, fixedRecommendations)

/-! ## Extraction collector, pure tail
(`analyzeSEO` result construction, playwright-audit.ts lines 108-163, and
the `runPlaywrightAudit` assembly, lines 23-106) -/

/-- `AuditOptions` record from types.ts (all fields optional). -/
structure AuditOptions where
  includeScreenshots : Option Bool
  mobileTest : Option Bool
  deepScan : Option Bool
  timeout : Option Int
deriving DecidableEq, Repr

/-- Pure tail of `analyzeSEO`: given the raw values extracted from the page
(title text, per-field meta lookups that defaulted to `null` on a miss, and
the ordered `(tag, text)` heading list), build the `SEOAnalysis` record
exactly as lines 143-162 do.  `metaDescription?.length || 0` and the
truthiness test `metaDescription ? ... : false` follow JavaScript semantics
(a present-but-empty string is falsy). -/
def mkSEOAnalysis (title : String) (metaDescription metaKeywords viewport charset
    canonical : Option String) (hreflang : List String) (robots : Option String)
    (openGraph : OpenGraph) (headings : List (String × String)) : SEOAnalysis :=
  { title :=
      { content := some title
        length := title.length
        isOptimal := decide (30 ≤ title.length ∧ title.length ≤ 60) }
    metaDescription :=
      { content := metaDescription
        length := match metaDescription with
          | none => 0
          | some d => d.length
        isOptimal := match metaDescription with
          | none => false
          | some d =>
              if d = "" then false
              else decide (120 ≤ d.length ∧ d.length ≤ 160) }
    metaKeywords := metaKeywords
    viewport := viewport
    charset := charset
    canonical := canonical
    hreflang := hreflang
    robots := robots
    openGraph := openGraph
    headingStructure :=
      { h1 := (headings.filter (fun h => h.1 == "h1")).map (·.2)
        h2 := (headings.filter (fun h => h.1 == "h2")).map (·.2)
        h3 := (headings.filter (fun h => h.1 == "h3")).map (·.2)
        h4 := (headings.filter (fun h => h.1 == "h4")).map (·.2)
        h5 := (headings.filter (fun h => h.1 == "h5")).map (·.2)
        h6 := (headings.filter (fun h => h.1 == "h6")).map (·.2) } }

/-- Pure assembly of `runPlaywrightAudit` (lines 66-101): given the four
extracted bundles, the screenshots that capture would produce, and the
ambient timestamp/processing time, build the returned `AuditResult`.
Screenshots default to the null record and are replaced by the captured
ones exactly when `options?.includeScreenshots !== false`. -/
def runPlaywrightAuditModel (url : String) (options : Option AuditOptions)
    (seo : SEOAnalysis) (technical : TechnicalAnalysis) (content : ContentAnalysis)
    (performance : PerformanceAnalysis) (captured : Screenshots) (ts : String)
    (processingTime : Int) : AuditResult :=
  let screenshots : Screenshots :=
    if options.bind (·.includeScreenshots) ≠ some false then captured
    else ⟨none, none, ts⟩
  let ir := analyzeIssuesAndRecommendations seo technical content performance
  let categories := calculateCategoryScores ir.1
  let overallScore := calculateOverallScore categories
  { id := none, userId := none, createdAt := none, updatedAt := none
    status := none, processingTime := some processingTime
    url := url, timestamp := ts, overallScore := overallScore
    categories := categories, seo := seo, technical := technical
    content := content, performance := performance, screenshots := screenshots
    recommendations := ir.2, issues := ir.1, llmAnalysis := none }

/-- C1: the scoring engine starts every category at 100, charges 20/10/5 per
high/medium/low-impact issue against the issue's own category with a clamp to
floor 0 after each subtraction (hence the final category score is
`max 0 (100 - sum of penalties)`), and the overall score is the arithmetic
mean of the four final category scores rounded half-up, always an integer in
[0, 100]. -/
theorem C1_scoring_engine (issues : List Issue) :
    penalty .high = 20 ∧ penalty .medium = 10 ∧ penalty .low = 5 ∧
    (∀ c : Category, catScore c (calculateCategoryScores issues) =
        max 0 (100 - totalPenalty c issues)) ∧
    calculateOverallScore (calculateCategoryScores issues) =
      jsRound ((((calculateCategoryScores issues).seo.score : ℚ) +
        ((calculateCategoryScores issues).technical.score : ℚ) +
        ((calculateCategoryScores issues).content.score : ℚ) +
        ((calculateCategoryScores issues).performance.score : ℚ)) / 4) ∧
    0 ≤ calculateOverallScore (calculateCategoryScores issues) ∧
    calculateOverallScore (calculateCategoryScores issues) ≤ 100 := by
  have hs := catScore_bounds issues .seo
  have ht := catScore_bounds issues .technical
  have hc := catScore_bounds issues .content
  have hp := catScore_bounds issues .performance
  simp only [catScore] at hs ht hc hp
  have hb := jsRound_div4_bounds
    ((calculateCategoryScores issues).seo.score +
      (calculateCategoryScores issues).technical.score +
      (calculateCategoryScores issues).content.score +
      (calculateCategoryScores issues).performance.score)
    (by omega) (by omega)
  refine ⟨rfl, rfl, rfl, fun c => calculateCategoryScores_closed_form issues c, ?_, ?_, ?_⟩
  · simp only [calculateOverallScore]
    congr 1
    push_cast
    ring
  · exact hb.1
  · exact hb.2

/-- C2: the deriver evaluates its fixed rule table in order (non-optimal
title → warning/seo; non-optimal or missing meta description → error/seo;
zero H1 → error/seo; more than one H1 → warning/seo; images missing alt →
warning/content; empty-text links → warning/content; no SSL →
error/technical; missing viewport → error/technical; load time over 3000 ms
→ warning/performance), producing exactly the issues whose predicates hold,
in that order; being a pure function of the four bundles, identical inputs
yield the identical ordered list. -/
theorem C2_deriver_rule_table (seo : SEOAnalysis) (technical : TechnicalAnalysis)
    (content : ContentAnalysis) (performance : PerformanceAnalysis) :
    (analyzeIssuesAndRecommendations seo technical content performance).1.map
        (fun i => (i.id, i.type, i.category)) =
      (if seo.title.isOptimal then [] else
        [("title-length", IssueType.warning, Category.seo)]) ++
      (if seo.metaDescription.isOptimal then [] else
        [("meta-description", IssueType.error, Category.seo)]) ++
      (if seo.headingStructure.h1.length = 0 then
        [("missing-h1", IssueType.error, Category.seo)] else []) ++
      (if 1 < seo.headingStructure.h1.length then
        [("multiple-h1", IssueType.warning, Category.seo)] else []) ++
      (if 0 < content.images.withoutAlt then
        [("images-without-alt", IssueType.warning, Category.content)] else []) ++
      (if 0 < content.links.empty then
        [("empty-links", IssueType.warning, Category.content)] else []) ++
      (if technical.security.hasSSL then [] else
        [("no-ssl", IssueType.error, Category.technical)]) ++
      (if technical.mobileOptimization.hasViewport then [] else
        [("no-viewport", IssueType.error, Category.technical)]) ++
      (if 3000 < technical.loadTime then
        [("slow-loading", IssueType.warning, Category.performance)] else []) := by
  simp [analyzeIssuesAndRecommendations,
    apply_ite (List.map fun i : Issue => (i.id, i.type, i.category))]

/-- A string of `n` repeated characters, for boundary-length inputs. -/
def charRun (n : Nat) : String := String.mk (List.replicate n 'a')

/-- `SEOAnalysis` built from a title and meta description only, all other
extracted signals absent. -/
def boundarySEO (t : String) (md : Option String) : SEOAnalysis :=
  mkSEOAnalysis t md none none none none [] none ⟨none, none, none, none, none⟩ []

/-- C5: the extracted title's `isOptimal` flag is true exactly when its
length is in [30, 60] inclusive, and the meta description's `isOptimal`
flag is true exactly when the description is present with length in
[120, 160] inclusive; a null/absent description is never optimal.
Boundary: lengths 30 and 60 are optimal and 29 and 61 are not; 120 and 160
are optimal and 119 and 161 are not. -/
theorem C5_optimality_thresholds :
    (∀ (title : String) (md mk vp ch ca : Option String) (hf : List String)
        (rb : Option String) (og : OpenGraph) (hd : List (String × String)),
      ((mkSEOAnalysis title md mk vp ch ca hf rb og hd).title.isOptimal = true ↔
        30 ≤ title.length ∧ title.length ≤ 60) ∧
      ((mkSEOAnalysis title md mk vp ch ca hf rb og hd).metaDescription.isOptimal = true ↔
        ∃ d, md = some d ∧ 120 ≤ d.length ∧ d.length ≤ 160)) ∧
    (boundarySEO (charRun 30) none).title.isOptimal = true ∧
    (boundarySEO (charRun 60) none).title.isOptimal = true ∧
    (boundarySEO (charRun 29) none).title.isOptimal = false ∧
    (boundarySEO (charRun 61) none).title.isOptimal = false ∧
    (boundarySEO (charRun 45) (some (charRun 120))).metaDescription.isOptimal = true ∧
    (boundarySEO (charRun 45) (some (charRun 160))).metaDescription.isOptimal = true ∧
    (boundarySEO (charRun 45) (some (charRun 119))).metaDescription.isOptimal = false ∧
    (boundarySEO (charRun 45) (some (charRun 161))).metaDescription.isOptimal = false ∧
    (boundarySEO (charRun 45) none).metaDescription.isOptimal = false := by
  refine ⟨fun title md mk vp ch ca hf rb og hd => ⟨?_, ?_⟩,
    by decide, by decide, by decide, by decide, by decide, by decide,
    by decide, by decide, by decide⟩
  · simp [mkSEOAnalysis]
  · cases md with
    | none => simp [mkSEOAnalysis]
    | some d =>
        by_cases hd : d = ""
        · subst hd
          simp [mkSEOAnalysis]
        · simp [mkSEOAnalysis, hd]

/-! ## Clean-page scenario inputs -/

/-- Scenario SEO bundle: 45-character title, 140-character meta description,
exactly one H1, full Open Graph tag set. -/
def scenarioSEO : SEOAnalysis :=
  mkSEOAnalysis (charRun 45) (some (String.mk (List.replicate 140 'b'))) none
    (some "width=device-width, initial-scale=1.0") (some "utf-8") none [] none
    ⟨some "Example", some "An example page", some "https://example.com/og.png",
      some "https://example.com/", some "website"⟩
    [("h1", "Welcome")]

/-- Scenario technical bundle: SSL, viewport present, 800 ms load time. -/
def scenarioTechnical : TechnicalAnalysis :=
  { loadTime := 800, firstContentfulPaint := 0, largestContentfulPaint := 0
    cumulativeLayoutShift := 0, timeToInteractive := 0
    networkRequests := ⟨12, 0, 0⟩
    mobileOptimization := ⟨true, true, true⟩
    accessibility := ⟨85, []⟩
    security := ⟨true, false, []⟩ }

/-- Scenario content bundle: no missing alt text, no empty links. -/
def scenarioContent : ContentAnalysis :=
  { wordCount := 500, readabilityScore := 75, images := ⟨3, 0, 0, 0, 0⟩
    links := ⟨10, 6, 4, 0, 0, 0⟩, structuredData := ⟨false, [], []⟩
    placeholderLinks := none, hasSuspiciousTestimonials := none }

/-- Scenario performance bundle. -/
def scenarioPerformance : PerformanceAnalysis :=
  { overallScore := 85, metrics := ⟨0, 0, 0, 0, 800, 0⟩, opportunities := []
    resources := ⟨⟨2, 0, 0⟩, ⟨1, 0, 0⟩, ⟨3, 0, 0⟩⟩ }

/-- Scenario captured screenshots. -/
def scenarioShots : Screenshots :=
  ⟨some "data:image-desktop", some "data:image-mobile", "2026-01-01T00:00:00.000Z"⟩

/-- The audit record assembled for the clean-page scenario. -/
def scenarioAudit : AuditResult :=
  runPlaywrightAuditModel "https://example.com" none scenarioSEO scenarioTechnical
    scenarioContent scenarioPerformance scenarioShots "2026-01-01T00:00:00.000Z" 1234

/-- C7: a page with a 45-character title, a 140-character meta description,
exactly one H1, a full Open Graph tag set, SSL, and an 800 ms load time (and
no other negative signals) yields zero issues from the deriver and an
overall score of 100. -/
theorem C7_clean_page_scenario :
    scenarioSEO.title.length = 45 ∧
    scenarioSEO.metaDescription.length = 140 ∧
    scenarioSEO.headingStructure.h1.length = 1 ∧
    scenarioSEO.openGraph.title ≠ none ∧ scenarioSEO.openGraph.description ≠ none ∧
    scenarioSEO.openGraph.image ≠ none ∧ scenarioSEO.openGraph.url ≠ none ∧
    scenarioSEO.openGraph.type ≠ none ∧
    scenarioTechnical.security.hasSSL = true ∧
    scenarioTechnical.loadTime = 800 ∧
    scenarioAudit.issues = [] ∧
    scenarioAudit.overallScore = 100 := by
  have hiss : (analyzeIssuesAndRecommendations scenarioSEO scenarioTechnical
      scenarioContent scenarioPerformance).1 = [] := by
    set_option maxRecDepth 4000 in decide
  refine ⟨by decide, by decide, by decide, by decide, by decide, by decide,
    by decide, by decide, by decide, by decide, ?_, ?_⟩
  · show (runPlaywrightAuditModel "https://example.com" none scenarioSEO scenarioTechnical
      scenarioContent scenarioPerformance scenarioShots "2026-01-01T00:00:00.000Z" 1234).issues = []
    simp only [runPlaywrightAuditModel]
    exact hiss
  · show (runPlaywrightAuditModel "https://example.com" none scenarioSEO scenarioTechnical
      scenarioContent scenarioPerformance scenarioShots "2026-01-01T00:00:00.000Z" 1234).overallScore = 100
    simp only [runPlaywrightAuditModel, hiss]
    show calculateOverallScore (calculateCategoryScores []) = 100
    simp only [calculateCategoryScores, List.foldl_nil, calculateOverallScore,
      initCategories, jsRound]
    norm_num

/-- C9: screenshots are captured whenever the options object is absent or
its `includeScreenshots` field is undefined or `true`; passing
`includeScreenshots` explicitly equal to `false` is the only way to get the
null screenshots record instead of the captured one. -/
theorem C9_screenshots_on_by_default (url : String) (options : Option AuditOptions)
    (seo : SEOAnalysis) (tech : TechnicalAnalysis) (content : ContentAnalysis)
    (perf : PerformanceAnalysis) (captured : Screenshots) (ts : String) (pt : Int) :
    ((runPlaywrightAuditModel url options seo tech content perf captured ts pt).screenshots =
      if options.bind (·.includeScreenshots) = some false then (⟨none, none, ts⟩ : Screenshots)
      else captured) ∧
    (runPlaywrightAuditModel url none seo tech content perf captured ts pt).screenshots =
      captured ∧
    (∀ mt ds t, (runPlaywrightAuditModel url (some ⟨none, mt, ds, t⟩) seo tech content perf
      captured ts pt).screenshots = captured) ∧
    (∀ mt ds t, (runPlaywrightAuditModel url (some ⟨some true, mt, ds, t⟩) seo tech content perf
      captured ts pt).screenshots = captured) ∧
    (∀ mt ds t, (runPlaywrightAuditModel url (some ⟨some false, mt, ds, t⟩) seo tech content perf
      captured ts pt).screenshots = (⟨none, none, ts⟩ : Screenshots)) := by
  refine ⟨?_, by simp [runPlaywrightAuditModel], fun mt ds t => by simp [runPlaywrightAuditModel],
    fun mt ds t => by simp [runPlaywrightAuditModel], fun mt ds t => by simp [runPlaywrightAuditModel]⟩
  by_cases h : options.bind (·.includeScreenshots) = some false <;>
    simp [runPlaywrightAuditModel, h]

/-! ## In-memory audit storage (`InMemoryAuditStorage`, memory-storage.ts)

The private `audits = new Map<string, AuditResult>()` is modelled as an
association list with JavaScript `Map` semantics: `set` replaces any entry
with the same key, `get` finds the stored value or `null`, `delete` removes
the entry and reports whether it existed.  The generated identifier and the
`new Date().toISOString()` timestamp come from the environment and are
passed as arguments. -/

/-- The storage collaborator's private map. -/
abbrev StorageState := List (String × AuditResult)

/-- JavaScript `Map.prototype.set`: insert, replacing any entry with the
same key. -/
def mapSet (m : StorageState) (k : String) (v : AuditResult) : StorageState :=
  (k, v) :: m.filter (fun p => p.1 != k)

/-- JavaScript `Map.prototype.get`, with `undefined` → `null` as in
`this.audits.get(id) || null`. -/
def mapGet (m : StorageState) (k : String) : Option AuditResult :=
  (m.find? (fun p => p.1 == k)).map (·.2)

/-- JavaScript `Map.prototype.delete`: the boolean is whether the key was
present; the entry is removed. -/
def mapDelete (m : StorageState) (k : String) : Bool × StorageState :=
  (m.any (fun p => p.1 == k), m.filter (fun p => p.1 != k))

/-- The `{...audit, id, createdAt, status: 'completed'}` spread in
`saveAudit`: the three storage-assigned fields overwrite the input's. -/
def withMetadata (audit : AuditResult) (id now : String) : AuditResult :=
  { audit with id := some id, createdAt := some now, status := some .completed }

/-- `InMemoryAuditStorage.saveAudit`: store the record extended with the
generated identifier, creation timestamp and completed status; return the
identifier (and the updated map). -/
def saveAudit (m : StorageState) (genId now : String) (audit : AuditResult) :
    String × StorageState :=
  (genId, mapSet m genId (withMetadata audit genId now))

/-- `InMemoryAuditStorage.getAudit`. -/
def getAudit (m : StorageState) (id : String) : Option AuditResult :=
  mapGet m id

/-- `InMemoryAuditStorage.deleteAudit`. -/
def deleteAudit (m : StorageState) (id : String) : Bool × StorageState :=
  mapDelete m id

/-! ## AuditService input validation (`audit-service.ts`) -/

/-- Result of the WHATWG `new URL(url)` constructor, abstracted to the one
field the validator reads. -/
structure URLParts where
  protocol : String
deriving DecidableEq, Repr

/-- `AuditService.isValidURL`: `new URL(url)` (passed in as an abstract
parser; `none` models the constructor throwing) must succeed and its
protocol must be `http:` or `https:`. -/
def isValidURL (parse : String → Option URLParts) (url : String) : Bool :=
  match parse url with
  | none => false
  | some u => ["http:", "https:"].contains u.protocol

/-- Outcome of one `AuditService.runAudit` call: the thrown error message or
the returned audit id, the storage state afterwards, and whether the
browser-driven audit (`runPlaywrightAudit`) was invoked at all. -/
structure RunAuditResult where
  outcome : Except String String
  state : StorageState
  browserInvoked : Bool
deriving Repr

/-- `AuditService.runAudit`: validate the URL first, throwing
`Invalid URL format` before any browser work; otherwise run the
browser audit (abstracted as `audit`) and persist the result. -/
def runAudit (parse : String → Option URLParts)
    (audit : String → Option AuditOptions → AuditResult) (m : StorageState)
    (genId now : String) (options : Option AuditOptions) (url : String) :
    RunAuditResult :=
  if isValidURL parse url then
    let r := audit url options
    ⟨.ok (saveAudit m genId now r).1, (saveAudit m genId now r).2, true⟩
  else ⟨.error "Invalid URL format", m, false⟩

/-! ## Minimal concrete audit record -/

/-- An `SEOAnalysis` with every extracted signal absent. -/
def emptySEO : SEOAnalysis :=
  ⟨⟨none, 0, false⟩, ⟨none, 0, false⟩, none, none, none, none, [], none,
    ⟨none, none, none, none, none⟩, ⟨[], [], [], [], [], []⟩⟩

/-- A `TechnicalAnalysis` with zero timings and no flags set. -/
def emptyTechnical : TechnicalAnalysis :=
  ⟨0, 0, 0, 0, 0, ⟨0, 0, 0⟩, ⟨false, false, false⟩, ⟨85, []⟩, ⟨false, false, []⟩⟩

/-- A `ContentAnalysis` with zero counts and no extras. -/
def emptyContent : ContentAnalysis :=
  ⟨0, 75, ⟨0, 0, 0, 0, 0⟩, ⟨0, 0, 0, 0, 0, 0⟩, ⟨false, [], []⟩, none, none⟩

/-- A `PerformanceAnalysis` with zero metrics. -/
def emptyPerformance : PerformanceAnalysis :=
  ⟨85, ⟨0, 0, 0, 0, 0, 0⟩, [], ⟨⟨0, 0, 0⟩, ⟨0, 0, 0⟩, ⟨0, 0, 0⟩⟩⟩

/-- A minimal complete audit record, not yet persisted (`id` is absent).
Its only JavaScript-falsy content signal is the absent meta description. -/
def sampleAudit : AuditResult :=
  { id := none, userId := none, createdAt := none, updatedAt := none
    status := none, processingTime := none
    url := "http://example.com", timestamp := "2026-01-01T00:00:00.000Z"
    overallScore := 50, categories := initCategories
    seo := emptySEO, technical := emptyTechnical, content := emptyContent
    performance := emptyPerformance
    screenshots := ⟨none, none, "2026-01-01T00:00:00.000Z"⟩
    recommendations := [], issues := [], llmAnalysis := none }

/-- C6 counterexample: saving a record whose `id` is absent and retrieving
it by the returned identifier does NOT yield a record equal in all fields to
what was saved — the retrieved record carries the storage-assigned `id`,
`createdAt` and `status` fields. -/
theorem C6_roundtrip_counterexample :
    getAudit (saveAudit [] "audit_1" "2026-01-02T00:00:00.000Z" sampleAudit).2
      (saveAudit [] "audit_1" "2026-01-02T00:00:00.000Z" sampleAudit).1 ≠
      some sampleAudit := by
  decide

/-- C6 (amended): saving a record and retrieving it by the returned
identifier yields exactly the saved record extended with the
storage-assigned `id`, `createdAt` and `status`; every other field (url,
timestamp, scores, bundles, screenshots, recommendations, issues, deep
analysis, userId, updatedAt, processingTime) is returned unchanged. -/
theorem C6_save_get_roundtrip (m : StorageState) (audit : AuditResult)
    (genId now : String) :
    getAudit (saveAudit m genId now audit).2 (saveAudit m genId now audit).1 =
      some (withMetadata audit genId now) ∧
    (withMetadata audit genId now).url = audit.url ∧
    (withMetadata audit genId now).timestamp = audit.timestamp ∧
    (withMetadata audit genId now).overallScore = audit.overallScore ∧
    (withMetadata audit genId now).categories = audit.categories ∧
    (withMetadata audit genId now).seo = audit.seo ∧
    (withMetadata audit genId now).technical = audit.technical ∧
    (withMetadata audit genId now).content = audit.content ∧
    (withMetadata audit genId now).performance = audit.performance ∧
    (withMetadata audit genId now).screenshots = audit.screenshots ∧
    (withMetadata audit genId now).recommendations = audit.recommendations ∧
    (withMetadata audit genId now).issues = audit.issues ∧
    (withMetadata audit genId now).llmAnalysis = audit.llmAnalysis ∧
    (withMetadata audit genId now).userId = audit.userId ∧
    (withMetadata audit genId now).updatedAt = audit.updatedAt ∧
    (withMetadata audit genId now).processingTime = audit.processingTime ∧
    (withMetadata audit genId now).id = some genId ∧
    (withMetadata audit genId now).createdAt = some now ∧
    (withMetadata audit genId now).status = some .completed := by
  refine ⟨?_, rfl, rfl, rfl, rfl, rfl, rfl, rfl, rfl, rfl, rfl, rfl, rfl,
    rfl, rfl, rfl, rfl, rfl, rfl⟩
  simp [getAudit, mapGet, saveAudit, mapSet]

/-- C10: `deleteAudit` returns `true` exactly when a record with the given
identifier was stored; afterwards `getAudit` on that identifier yields
`null`; deleting an absent identifier returns `false` and leaves the map
unchanged, so a second delete of the same identifier always returns
`false`. -/
theorem C10_delete_semantics (m : StorageState) (id : String) :
    ((deleteAudit m id).1 = true ↔ getAudit m id ≠ none) ∧
    getAudit (deleteAudit m id).2 id = none ∧
    (getAudit m id = none → deleteAudit m id = (false, m)) ∧
    (deleteAudit (deleteAudit m id).2 id).1 = false := by
  refine ⟨?_, ?_, ?_, ?_⟩
  · simp only [deleteAudit, mapDelete, getAudit, mapGet, List.any_eq_true,
      ne_eq, Option.map_eq_none', List.find?_eq_none, beq_iff_eq, not_forall]
    constructor
    · rintro ⟨p, hp, he⟩
      exact ⟨p, hp, by simp [he]⟩
    · rintro ⟨p, hp, he⟩
      exact ⟨p, hp, by simpa using he⟩
  · simp only [deleteAudit, mapDelete, getAudit, mapGet, Option.map_eq_none',
      List.find?_eq_none, List.mem_filter, beq_iff_eq, bne_iff_ne]
    rintro ⟨a, b⟩ ⟨_, hne⟩
    simpa using hne
  · intro h
    simp only [getAudit, mapGet, Option.map_eq_none', List.find?_eq_none,
      beq_iff_eq] at h
    simp only [deleteAudit, mapDelete, Prod.mk.injEq]
    constructor
    · simp only [List.any_eq_false, beq_iff_eq]
      exact h
    · refine List.filter_eq_self.mpr ?_
      intro p hp
      simpa using h p hp
  · simp only [deleteAudit, mapDelete, List.any_eq_false, List.mem_filter,
      beq_iff_eq, bne_iff_ne]
    rintro ⟨a, b⟩ ⟨_, hne⟩
    simpa using hne

/-- C10 witness: deleting from the empty map returns `false` and leaves the
map empty. -/
theorem C10_delete_semantics_witness :
    deleteAudit ([] : StorageState) "audit_1" = (false, []) :=
  (C10_delete_semantics [] "audit_1").2.2.1 rfl

/-- C8: a caller-supplied string that does not parse as a URL, or whose
scheme is neither `http` nor `https`, is rejected with the
`Invalid URL format` error before any browser work begins: the browser
audit is never invoked and the storage state is unchanged. -/
theorem C8_invalid_url_rejected (parse : String → Option URLParts)
    (audit : String → Option AuditOptions → AuditResult) (m : StorageState)
    (genId now : String) (options : Option AuditOptions) (url : String)
    (h : parse url = none ∨
      ∀ u, parse url = some u → u.protocol ≠ "http:" ∧ u.protocol ≠ "https:") :
    runAudit parse audit m genId now options url =
      ⟨.error "Invalid URL format", m, false⟩ := by
  have hv : isValidURL parse url = false := by
    unfold isValidURL
    cases hp : parse url with
    | none => rfl
    | some u =>
        rcases h with h | h
        · rw [hp] at h
          exact absurd h (by simp)
        · have := h u hp
          simp [List.contains, this.1, this.2]
  simp [runAudit, hv]

/-- C8 witness: a string the URL parser rejects is refused with the error,
untouched storage, and no browser invocation. -/
theorem C8_invalid_url_rejected_witness :
    runAudit (fun _ => none) (fun _ _ => sampleAudit) [] "audit_1"
      "2026-01-02T00:00:00.000Z" none "not a url" =
      ⟨.error "Invalid URL format", [], false⟩ :=
  C8_invalid_url_rejected _ _ _ _ _ _ _ (Or.inl rfl)

/-! ## Heuristic deep-analysis generator (`LLMService`, llm-service.ts) -/

/-- Whether the optional `placeholderLinks` list is present and non-empty
(`auditResult.content.placeholderLinks && ...length > 0`). -/
def hasPlaceholderLinks (a : AuditResult) : Bool :=
  match a.content.placeholderLinks with
  | none => false
  | some l => decide (0 < l.length)

/-- Number of placeholder links (0 when the optional list is absent). -/
def placeholderLinkCount (a : AuditResult) : Nat :=
  match a.content.placeholderLinks with
  | none => 0
  | some l => l.length

/-- `extractCriticalIssues`: missing meta description, missing canonical,
missing Open Graph title, missing viewport — in that order. -/
def extractCriticalIssues (a : AuditResult) : List DetailedIssue :=
  (if jsTruthyStr a.seo.metaDescription.content then [] else
    [{ id := "missing-meta-description"
       title := "Meta Description Missing"
       description := "No <meta name=\"description\"> tag found"
       impact := "Poor search engine visibility and click-through rates"
       fix := "Add compelling 150-160 character descriptions for each page"
       businessImpact := "High - affects search rankings and CTR"
       codeExample := some "<meta name=\"description\" content=\"Your compelling description here\">" }]) ++
  (if jsTruthyStr a.seo.canonical then [] else
    [{ id := "missing-canonical"
       title := "Canonical Links Missing"
       description := "No <link rel=\"canonical\"> tags found"
       impact := "Potential duplicate content issues"
       fix := "Add canonical URLs to all pages"
       businessImpact := "Medium - affects search indexing"
       codeExample := some "<link rel=\"canonical\" href=\"https://example.com/page\">" }]) ++
  (if jsTruthyStr a.seo.openGraph.title then [] else
    [{ id := "missing-open-graph"
       title := "Open Graph Meta Tags Missing"
       description := "No Facebook/social media sharing optimization. Missing: og:title, og:description, og:image, og:url"
       impact := "Poor social media sharing appearance"
       fix := "Implement complete OG tag set"
       businessImpact := "Medium - affects social media reach"
       codeExample := some ("<meta property=\"og:title\" content=\"[Page title]\">\n" ++
         "<meta property=\"og:description\" content=\"[Page description]\">\n" ++
         "<meta property=\"og:image\" content=\"[Social sharing image URL]\">\n" ++
         "<meta property=\"og:url\" content=\"[Current page URL]\">\n" ++
         "<meta property=\"og:type\" content=\"website\">") }]) ++
  (if jsTruthyStr a.seo.viewport then [] else
    [{ id := "missing-viewport"
       title := "Viewport Meta Tag Missing"
       description := "Need to verify mobile viewport configuration"
       impact := "Poor mobile experience and rankings"
       fix := "Add viewport meta tag for proper mobile display"
       businessImpact := "High - affects mobile SEO"
       codeExample := some "<meta name=\"viewport\" content=\"width=device-width, initial-scale=1\">" }])

/-- `extractHighPriorityIssues`: placeholder navigation links, non-optimal
title, images without alt text, no SSL — in that order. -/
def extractHighPriorityIssues (a : AuditResult) : List DetailedIssue :=
  (if hasPlaceholderLinks a then
    [{ id := "broken-navigation"
       title := "Broken Navigation Links"
       description := toString (placeholderLinkCount a) ++
         " navigation links point to placeholders (#, #_, example.com)"
       impact := "Users cannot navigate the main site sections"
       fix := "Replace placeholder links with actual URLs"
       businessImpact := "High - affects user experience and engagement"
       codeExample := some ("<!-- Replace these: -->\n<a href=\"#_\">What We Do</a>\n" ++
         "<!-- With actual URLs: -->\n<a href=\"/services\">What We Do</a>") }]
    else []) ++
  (if a.seo.title.isOptimal then [] else
    [{ id := "title-optimization"
       title := "Title Tag Not Optimal"
       description := "Title is " ++ toString a.seo.title.length ++
         " characters. Optimal length is 30-60 characters"
       impact := "Suboptimal search visibility and click-through rates"
       fix := "Optimize title tag to 30-60 characters"
       businessImpact := "Medium - affects search rankings and CTR"
       codeExample := none }]) ++
  (if 0 < a.content.images.withoutAlt then
    [{ id := "images-accessibility"
       title := "Images Without Alt Text"
       description := toString a.content.images.withoutAlt ++
         " images are missing descriptive alt text"
       impact := "Poor accessibility for screen readers and SEO"
       fix := "Add descriptive alt text to all images"
       businessImpact := "Medium - affects accessibility compliance and SEO"
       codeExample := some "<img src=\"logo.png\" alt=\"Company Name - Professional Services\">" }]
    else []) ++
  (if a.technical.security.hasSSL then [] else
    [{ id := "no-ssl"
       title := "No SSL Certificate"
       description := "Website is not using HTTPS"
       impact := "Security warnings and poor search rankings"
       fix := "Install SSL certificate and redirect HTTP to HTTPS"
       businessImpact := "High - affects trust and search rankings"
       codeExample := none }])

/-- `extractMediumPriorityIssues`: suspicious testimonials, slow load,
thin content — in that order. -/
def extractMediumPriorityIssues (a : AuditResult) : List DetailedIssue :=
  (if jsTruthyBool a.content.hasSuspiciousTestimonials then
    [{ id := "fake-testimonials"
       title := "Inappropriate Testimonials"
       description := "Testimonials contain clearly fake/test content with celebrity names"
       impact := "Damages credibility and professionalism"
       fix := "Replace with real client testimonials or remove section"
       businessImpact := "Medium - affects brand credibility"
       codeExample := none }]
    else []) ++
  (if 3000 < a.technical.loadTime then
    [{ id := "slow-loading"
       title := "Slow Page Load Time"
       description := "Page loads in " ++ toString a.technical.loadTime ++ "ms"
       impact := "Poor user experience and search rankings"
       fix := "Optimize images, minify CSS/JS, and use caching"
       businessImpact := "Medium - affects user engagement"
       codeExample := none }]
    else []) ++
  (if a.content.wordCount < 300 then
    [{ id := "thin-content"
       title := "Thin Content"
       description := "Page has only " ++ toString a.content.wordCount ++ " words"
       impact := "Poor search engine rankings for competitive terms"
       fix := "Add more comprehensive, valuable content"
       businessImpact := "Medium - affects SEO performance"
       codeExample := none }]
    else [])

/-- `calculateContentQualityScore`: start at 100; subtract 20 when the meta
description content is JavaScript-falsy; subtract 5 per placeholder link;
subtract 3 per image missing alt text; subtract 15 when suspicious
testimonials are flagged; clamp into [0, 100]. -/
def calculateContentQualityScore (a : AuditResult) : Int :=
  let s0 : Int := 100
  let s1 : Int := if jsTruthyStr a.seo.metaDescription.content then s0 else s0 - 20
  let s2 : Int :=
    match a.content.placeholderLinks with
    | none => s1
    | some l => if 0 < l.length then s1 - (l.length : Int) * 5 else s1
  let s3 : Int :=
    if 0 < a.content.images.withoutAlt then
      s2 - (a.content.images.withoutAlt : Int) * 3
    else s2
  let s4 : Int := if jsTruthyBool a.content.hasSuspiciousTestimonials then s3 - 15 else s3
  max 0 (min 100 s4)

/-- `extractContentIssues`. -/
def extractContentIssues (a : AuditResult) : List String :=
  (if jsTruthyStr a.seo.metaDescription.content then [] else
    ["Missing meta description tags"]) ++
  (if hasPlaceholderLinks a then
    [toString (placeholderLinkCount a) ++ " broken/placeholder links detected"] else []) ++
  (if 0 < a.content.images.withoutAlt then
    [toString a.content.images.withoutAlt ++ " images missing alt text"] else []) ++
  (if jsTruthyBool a.content.hasSuspiciousTestimonials then
    ["Fake testimonials detected"] else [])

/-- `extractContentRecommendations`: a fixed list. -/
def extractContentRecommendations (_a : AuditResult) : List String :=
  ["Add compelling meta descriptions to all pages",
   "Fix all broken and placeholder links",
   "Add descriptive alt text to all images",
   "Replace test content with real testimonials",
   "Implement proper heading hierarchy"]

/-- `calculateSEOImpact`: bucket keyed by the critical-issue count. -/
def calculateSEOImpact (a : AuditResult) : String :=
  let criticalIssues := (extractCriticalIssues a).length
  if 3 ≤ criticalIssues then "30-50% with proper meta tags and fixes"
  else if 2 ≤ criticalIssues then "20-30% with SEO improvements"
  else "10-20% with minor optimizations"

/-- `calculateUXImpact`: bucket keyed by navigation and performance flags. -/
def calculateUXImpact (a : AuditResult) : String :=
  let hasNavigationIssues := hasPlaceholderLinks a
  let hasPerformanceIssues := decide (3000 < a.technical.loadTime)
  if hasNavigationIssues && hasPerformanceIssues then
    "High - functional navigation and performance fixes"
  else if hasNavigationIssues then
    "Medium - functional navigation will reduce bounce rate"
  else if hasPerformanceIssues then
    "Medium - performance improvements will help engagement"
  else "Low to Medium - minor improvements"

/-- `calculateConversionImpact`: bucket keyed by contact and credibility
flags. -/
def calculateConversionImpact (a : AuditResult) : String :=
  let hasContactIssues := hasPlaceholderLinks a
  let hasCredibilityIssues := jsTruthyBool a.content.hasSuspiciousTestimonials
  if hasContactIssues && hasCredibilityIssues then
    "Medium to High - working contact methods and credible testimonials"
  else if hasContactIssues then
    "Medium - working contact methods will improve lead generation"
  else if hasCredibilityIssues then
    "Medium - professional testimonials will increase credibility"
  else "Low to Medium - minor conversion improvements"

/-- `extractActionItems`: immediate items (meta description, navigation,
testimonials), then high items (Open Graph, alt text), then the two fixed
medium housekeeping items. -/
def extractActionItems (a : AuditResult) : List ActionItem :=
  (if jsTruthyStr a.seo.metaDescription.content then [] else
    [{ priority := .immediate
       task := "Add meta descriptions to all pages"
       timeline := "Today"
       codeExample := some "<meta name=\"description\" content=\"Compelling 150-160 character description\">"
       successMetrics := some ["Improved search result snippets", "Higher click-through rates"] }]) ++
  (if hasPlaceholderLinks a then
    [{ priority := .immediate
       task := "Fix main navigation links - replace #_ with actual URLs"
       timeline := "Today"
       codeExample := some "<a href=\"/services\">What We Do</a>"
       successMetrics := some ["Functional navigation", "Reduced bounce rate"] }]
    else []) ++
  (if jsTruthyBool a.content.hasSuspiciousTestimonials then
    [{ priority := .immediate
       task := "Replace fake testimonials with real content or remove"
       timeline := "Today"
       codeExample := none
       successMetrics := some ["Improved credibility", "Better user trust"] }]
    else []) ++
  (if jsTruthyStr a.seo.openGraph.title then [] else
    [{ priority := .high
       task := "Implement Open Graph tags for social sharing"
       timeline := "This week"
       codeExample := some ("<meta property=\"og:title\" content=\"Page Title\">\n" ++
         "<meta property=\"og:description\" content=\"Page Description\">")
       successMetrics := some ["Better social sharing", "Increased social engagement"] }]) ++
  (if 0 < a.content.images.withoutAlt then
    [{ priority := .high
       task := "Audit image alt attributes"
       timeline := "This week"
       codeExample := some "<img src=\"image.jpg\" alt=\"Descriptive alt text\">"
       successMetrics := some ["Better accessibility", "Improved SEO"] }]
    else []) ++
  [{ priority := .medium
     task := "Content proofreading and corrections"
     timeline := "This month"
     codeExample := none
     successMetrics := some ["Professional appearance", "Better user experience"] },
   { priority := .medium
     task := "Implement structured data markup"
     timeline := "This month"
     codeExample := none
     successMetrics := some ["Rich search results", "Better search visibility"] }]

/-- `getFallbackAnalysis`: the heuristic deep-analysis report, a total
function of the audit record. -/
def getFallbackAnalysis (a : AuditResult) : LLMAnalysisResult :=
  { criticalIssues := extractCriticalIssues a
    highPriorityIssues := extractHighPriorityIssues a
    mediumPriorityIssues := extractMediumPriorityIssues a
    contentQualityAssessment :=
      { overallScore := calculateContentQualityScore a
        issues := extractContentIssues a
        recommendations := extractContentRecommendations a }
    businessImpactProjections :=
      { searchVisibilityIncrease := calculateSEOImpact a
        userExperienceImprovement := calculateUXImpact a
        conversionRateImpact := calculateConversionImpact a }
    actionItems := extractActionItems a }

/-- Outcome of the `fetch` call to the generative-analysis collaborator:
the transport layer rejected (error or timeout), the response was
non-success (`!response.ok`), or a body was returned. -/
inductive FetchOutcome where
  | transportError
  | httpError (status : Nat)
  | success (body : String)
deriving DecidableEq, Repr

/-- `parseAnalysisResponse`: try to extract a JSON block from the response
text (the regex is abstracted as `extractJson`) and parse it (`parseJson`
returning `none` models a `JSON.parse` exception); on any failure fall back
to the heuristic analysis. -/
def parseAnalysisResponse (extractJson : String → Option String)
    (parseJson : String → Option LLMAnalysisResult) (response : String)
    (a : AuditResult) : LLMAnalysisResult :=
  match extractJson response with
  | some s =>
      match parseJson s with
      | some r => r
      | none => getFallbackAnalysis a
  | none => getFallbackAnalysis a

/-- `analyzeAuditResults` as shipped in llm-service.ts: the first statement
unconditionally returns the heuristic fallback (the generative-analysis
path below it is unreachable). -/
def analyzeAuditResults (_apiKey : String) (_fetchResult : FetchOutcome)
    (_extractJson : String → Option String)
    (_parseJson : String → Option LLMAnalysisResult) (a : AuditResult)
    (_pageContent : String) : LLMAnalysisResult :=
  getFallbackAnalysis a

/-- The generative-analysis code path of `analyzeAuditResults` (the variant
without the unconditional early return): missing API key, transport error
and non-success response each produce the fallback; a success body goes
through `parseAnalysisResponse`. -/
def analyzeAuditResultsEnabled (apiKey : String) (fetchResult : FetchOutcome)
    (extractJson : String → Option String)
    (parseJson : String → Option LLMAnalysisResult) (a : AuditResult) :
    LLMAnalysisResult :=
  if apiKey = "" then getFallbackAnalysis a
  else
    match fetchResult with
    | .transportError => getFallbackAnalysis a
    | .httpError _ => getFallbackAnalysis a
    | .success body => parseAnalysisResponse extractJson parseJson body a

/-- C3: the heuristic content-quality score equals 100, minus 20 when the
meta description content is missing (JavaScript-falsy: absent or empty),
minus 5 per placeholder link, minus 3 per image missing alt text, minus 15
when suspicious testimonials are flagged, clamped into [0, 100]; an audit
record whose only negative signal is a missing meta description scores
exactly 80. -/
theorem C3_content_quality_score :
    (∀ a : AuditResult,
      calculateContentQualityScore a =
        max 0 (min 100 (100 -
          (if jsTruthyStr a.seo.metaDescription.content then 0 else 20) -
          5 * (placeholderLinkCount a : Int) -
          3 * (a.content.images.withoutAlt : Int) -
          (if jsTruthyBool a.content.hasSuspiciousTestimonials then 15 else 0)))) ∧
    calculateContentQualityScore sampleAudit = 80 := by
  constructor
  · intro a
    unfold calculateContentQualityScore placeholderLinkCount
    rcases h : a.content.placeholderLinks with _ | l <;>
      simp only [h] <;>
      split_ifs <;>
      (congr 1; congr 1; push_cast; omega)
  · decide

/-- C4: the orchestration around the generative-analysis collaborator never
surfaces an error: the shipped `analyzeAuditResults` always returns the
complete heuristic fallback report, and even on the enabled code path a
missing API key, a transport error or timeout, a non-success response, a
response with no extractable JSON, and a JSON block that fails to parse
each produce exactly the heuristic fallback. -/
theorem C4_fallback_on_generative_failure :
    (∀ (apiKey : String) (f : FetchOutcome) (ej : String → Option String)
        (pj : String → Option LLMAnalysisResult) (a : AuditResult) (pc : String),
      analyzeAuditResults apiKey f ej pj a pc = getFallbackAnalysis a) ∧
    (∀ (f : FetchOutcome) (ej : String → Option String)
        (pj : String → Option LLMAnalysisResult) (a : AuditResult),
      analyzeAuditResultsEnabled "" f ej pj a = getFallbackAnalysis a) ∧
    (∀ (k : String) (ej : String → Option String)
        (pj : String → Option LLMAnalysisResult) (a : AuditResult),
      analyzeAuditResultsEnabled k .transportError ej pj a = getFallbackAnalysis a) ∧
    (∀ (k : String) (status : Nat) (ej : String → Option String)
        (pj : String → Option LLMAnalysisResult) (a : AuditResult),
      analyzeAuditResultsEnabled k (.httpError status) ej pj a = getFallbackAnalysis a) ∧
    (∀ (k body : String) (pj : String → Option LLMAnalysisResult) (a : AuditResult),
      analyzeAuditResultsEnabled k (.success body) (fun _ => none) pj a =
        getFallbackAnalysis a) ∧
    (∀ (k body : String) (ej : String → Option String) (a : AuditResult),
      analyzeAuditResultsEnabled k (.success body) ej (fun _ => none) a =
        getFallbackAnalysis a) := by
  refine ⟨fun _ _ _ _ _ _ => rfl, fun _ _ _ _ => by simp [analyzeAuditResultsEnabled],
    ?_, ?_, ?_, ?_⟩
  · intro k ej pj a
    by_cases hk : k = ""
    · simp [analyzeAuditResultsEnabled, hk]
    · unfold analyzeAuditResultsEnabled
      rw [if_neg hk]
  · intro k status ej pj a
    by_cases hk : k = ""
    · simp [analyzeAuditResultsEnabled, hk]
    · unfold analyzeAuditResultsEnabled
      rw [if_neg hk]
  · intro k body pj a
    by_cases hk : k = ""
    · simp [analyzeAuditResultsEnabled, hk]
    · unfold analyzeAuditResultsEnabled
      rw [if_neg hk]
      rfl
  · intro k body ej a
    by_cases hk : k = ""
    · simp [analyzeAuditResultsEnabled, hk]
    · unfold analyzeAuditResultsEnabled
      rw [if_neg hk]
      show parseAnalysisResponse ej (fun _ => none) body a = getFallbackAnalysis a
      unfold parseAnalysisResponse
      cases ej body <;> rfl

end SEOAudit
